import Mathlib

/-!
Verification development for the Generic Buffer Manager interface
(`gbm.h`).  The repository ships only the declaration surface: enum
values and constants below are embedded directly from the header, while
the behaviour of the declared operations (device opening, buffer
creation, mapping, surface front-buffer locking) is modelled from the
specification, since no implementation is present in the sources.
-/

namespace GBM

/-- Pixel formats, from `enum gbm_bo_format` in gbm.h: both are 32-bit
values with 8 bits per channel. -/
inductive Format where
  | XRGB8888
  | ARGB8888
deriving DecidableEq

/-- Enum values of `gbm_bo_format` (XRGB8888 first, so 0, then 1). -/
def Format.enumValue : Format → Nat
  | .XRGB8888 => 0
  | .ARGB8888 => 1

/-- Both formats are "8 bits per channel in a 32 bit value" per the
header doc comments, hence 4 bytes per pixel. -/
def bytesPerPixel : Format → Nat
  | _ => 4

/-- From `enum gbm_bo_flags`: buffer presented to the screen. -/
def GBM_BO_USE_SCANOUT : Nat := 1 <<< 0

/-- From `enum gbm_bo_flags`: buffer used as cursor. -/
def GBM_BO_USE_CURSOR : Nat := 1 <<< 1

/-- From `enum gbm_bo_flags`: deprecated alias, defined in the header as
`GBM_BO_USE_CURSOR_64X64 = GBM_BO_USE_CURSOR`. -/
def GBM_BO_USE_CURSOR_64X64 : Nat := GBM_BO_USE_CURSOR

/-- From `enum gbm_bo_flags`: buffer used for rendering. -/
def GBM_BO_USE_RENDERING : Nat := 1 <<< 2

/-- From `enum gbm_bo_flags`: buffer can be used for gbm_bo_write. -/
def GBM_BO_USE_WRITE : Nat := 1 <<< 3

/-- From `enum gbm_bo_flags`: buffer is linear (not tiled). -/
def GBM_BO_USE_LINEAR : Nat := 1 <<< 4

/-- From `enum gbm_bo_transfer_flags`: contents read back at map time. -/
def GBM_BO_TRANSFER_READ : Nat := 1 <<< 0

/-- From `enum gbm_bo_transfer_flags`: contents written back at unmap. -/
def GBM_BO_TRANSFER_WRITE : Nat := 1 <<< 1

/-- From `enum gbm_bo_transfer_flags`: read/modify/write, defined in the
header as the bitwise OR of READ and WRITE. -/
def GBM_BO_TRANSFER_READ_WRITE : Nat :=
  GBM_BO_TRANSFER_READ ||| GBM_BO_TRANSFER_WRITE

/-- Import source tags from the header. -/
def GBM_BO_IMPORT_WL_BUFFER : Nat := 0x5501

/-- Import source tag for EGL images. -/
def GBM_BO_IMPORT_EGL_IMAGE : Nat := 0x5502

/-- Import source tag for raw file descriptors. -/
def GBM_BO_IMPORT_FD : Nat := 0x5503

/-- Error taxonomy of the specification (section 7). -/
inductive GbmError where
  | BackendUnavailable
  | AllocationFailed
  | ImportFailed
  | MapFailed
  | InvalidMapToken
  | WriteUnsupported
  | ExportFailed
  | NoFreeBuffer
  | AlreadyLocked
  | NotLocked
  | ForeignBuffer
  | PreconditionViolated
deriving DecidableEq

/-- Modelled from the spec: the allocation backend is absent from the
repository (gbm.h declares prototypes only).  Per the spec it is a black
box that, for a valid handle, either produces a usable memory region
meeting the requested format/layout or fails; stride is
backend-determined and may exceed width times bytes-per-pixel due to
alignment (modelled as a per-row padding choice); the surface pool is
bounded and small with a backend-chosen size; the bulk-write path and
CPU mapping are backend-dependent capabilities. -/
structure Backend where
  name : String
  validFd : Int → Bool
  supportedFmt : Format → Nat → Bool
  rowPadding : Nat → Format → Nat
  poolSize : Nat
  writeOk : Nat → Bool
  mapOk : Nat → Bool

/-- Modelled from the spec: a Device wraps one open connection to the
backend, identified by a file descriptor. -/
structure Device where
  backend : Backend
  fd : Int

/-- Modelled from the spec: `gbm_create_device` wraps an externally
supplied resource handle; it fails with `BackendUnavailable` if the
backend cannot be initialized from that handle. -/
def gbm_create_device (b : Backend) (fd : Int) : Except GbmError Device :=
  if b.validFd fd then .ok ⟨b, fd⟩ else .error .BackendUnavailable

/-- Accessor for the device file descriptor (`gbm_device_get_fd`). -/
def gbm_device_get_fd (d : Device) : Int := d.fd

/-- Accessor for the backend name (`gbm_device_get_backend_name`). -/
def gbm_device_get_backend_name (d : Device) : String := d.backend.name

/-- Modelled from the spec: `gbm_device_is_format_supported` is a pure
capability query, never mutates state, and returns false (not an error)
for unsupported combinations. -/
def gbm_device_is_format_supported (d : Device) (fmt : Format)
    (usage : Nat) : Bool :=
  d.backend.supportedFmt fmt usage

/-- Region of a CPU mapping, in absolute buffer coordinates. -/
structure MapRegion where
  x : Nat
  y : Nat
  w : Nat
  h : Nat
deriving DecidableEq

/-- Whether the point (a, b) lies inside the mapped rectangle. -/
def MapRegion.containsPt (r : MapRegion) (a b : Nat) : Bool :=
  decide (r.x ≤ a) && decide (a < r.x + r.w) &&
  decide (r.y ≤ b) && decide (b < r.y + r.h)

/-- An outstanding CPU mapping: the region, the transfer flags it was
requested with, and the staging contents visible through the returned
pointer (absolute coordinates). -/
structure MapState where
  region : MapRegion
  flags : Nat
  staging : Nat → Nat → Nat

/-- One client annotation: the user-data pointer and the optional
destructor callback identity attached via `gbm_bo_set_user_data`. -/
structure UserData where
  ptr : Nat
  dtor : Option Nat

/-- Modelled from the spec: a BufferObject is one allocated memory
region with graphics metadata, an optional user-data annotation, and at
most one outstanding CPU mapping.  Contents are modelled as a byte grid
indexed by absolute (column, row) coordinates. -/
structure BufferObject where
  dev : Device
  width : Nat
  height : Nat
  stride : Nat
  format : Format
  usage : Nat
  userData : Option UserData
  contents : Nat → Nat → Nat
  mapping : Option MapState

/-- Modelled from the spec: `gbm_bo_create` requests new backend-managed
memory; it fails with `AllocationFailed` if the backend cannot satisfy
the request (unsupported format/usage combination).  Stride is
backend-chosen and reported back: at least width times bytes-per-pixel,
plus backend alignment padding. -/
def gbm_bo_create (d : Device) (w h : Nat) (fmt : Format)
    (flags : Nat) : Except GbmError BufferObject :=
  if d.backend.supportedFmt fmt flags then
    .ok { dev := d, width := w, height := h,
          stride := w * bytesPerPixel fmt + d.backend.rowPadding w fmt,
          format := fmt, usage := flags, userData := none,
          contents := fun _ _ => 0, mapping := none }
  else .error .AllocationFailed

/-- Pure accessor `gbm_bo_get_width`. -/
def gbm_bo_get_width (bo : BufferObject) : Nat := bo.width

/-- Pure accessor `gbm_bo_get_height`. -/
def gbm_bo_get_height (bo : BufferObject) : Nat := bo.height

/-- Pure accessor `gbm_bo_get_stride`. -/
def gbm_bo_get_stride (bo : BufferObject) : Nat := bo.stride

/-- Pure accessor `gbm_bo_get_format`. -/
def gbm_bo_get_format (bo : BufferObject) : Format := bo.format

/-- Pure accessor `gbm_bo_get_device`. -/
def gbm_bo_get_device (bo : BufferObject) : Device := bo.dev

/-- Modelled from the spec: `gbm_bo_set_user_data` attaches one opaque
client-owned annotation; at most one attachment per buffer object, last
write wins. -/
def gbm_bo_set_user_data (bo : BufferObject) (p : Nat)
    (dtor : Option Nat) : BufferObject :=
  { bo with userData := some ⟨p, dtor⟩ }

/-- Accessor `gbm_bo_get_user_data`: the attached pointer, if any. -/
def gbm_bo_get_user_data (bo : BufferObject) : Option Nat :=
  bo.userData.map (fun u => u.ptr)

/-- Observable events of buffer-object destruction: a destructor
callback invocation with its (buffer, pointer) arguments, or the release
of the backend resource. -/
inductive DestroyEvent where
  | callback (bo : BufferObject) (dtor : Nat) (p : Nat)
  | releaseBackend (bo : BufferObject)

/-- Modelled from the spec: `gbm_bo_destroy` invokes the attached
destructor callback (if any) exactly once with the buffer and the
user-data pointer, then releases backend memory.  The result is the
ordered trace of observable destruction events. -/
def gbm_bo_destroy (bo : BufferObject) : List DestroyEvent :=
  (match bo.userData with
   | some ud =>
     match ud.dtor with
     | some d => [DestroyEvent.callback bo d ud.ptr]
     | none => []
   | none => []) ++ [DestroyEvent.releaseBackend bo]

/-- Modelled from the spec: `gbm_bo_write` is a bulk-write shortcut
guaranteed to work for buffers created with the CURSOR usage flag;
other usage combinations are backend-defined and may fail with
`WriteUnsupported`.  The byte buffer is laid out row-major with the
buffer stride. -/
def gbm_bo_write (bo : BufferObject) (buf : Nat → Nat)
    (_count : Nat) : Except GbmError BufferObject :=
  if ((bo.usage &&& GBM_BO_USE_CURSOR) != 0) || bo.dev.backend.writeOk bo.usage then
    .ok { bo with contents := fun a b => buf (b * bo.stride + a) }
  else .error .WriteUnsupported

/-- Modelled from the spec: `gbm_bo_map` requests a CPU-addressable
view of a rectangular sub-region.  It fails with `MapFailed` if the
region exceeds the buffer bounds or the backend cannot map this
buffer's storage, and nested maps are a precondition violation (only
one outstanding map per buffer is permitted).  Read-flagged maps
reflect the current contents through the returned pointer; otherwise
the staging view starts out unspecified (all zeros here). -/
def gbm_bo_map (bo : BufferObject) (x y w h flags : Nat) :
    Except GbmError BufferObject :=
  match bo.mapping with
  | some _ => .error .PreconditionViolated
  | none =>
    if bo.dev.backend.mapOk bo.usage then
      if x + w ≤ bo.width ∧ y + h ≤ bo.height then
        .ok { bo with mapping := some (MapState.mk ⟨x, y, w, h⟩ flags
          (if (flags &&& GBM_BO_TRANSFER_READ) != 0 then bo.contents
           else fun _ _ => 0)) }
      else .error .MapFailed
    else .error .MapFailed

/-- Writing a pattern through the mapped pointer: every point of the
mapped region takes the pattern value at its region-relative
coordinates; points outside the region are untouched.  Without an
outstanding map this is a no-op. -/
def mapWritePattern (bo : BufferObject) (p : Nat → Nat → Nat) :
    BufferObject :=
  match bo.mapping with
  | none => bo
  | some ms =>
    { bo with mapping := some (MapState.mk ms.region ms.flags
      (fun a b =>
        if ms.region.containsPt a b then
          p (a - ms.region.x) (b - ms.region.y)
        else ms.staging a b)) }

/-- Reading through the mapped pointer at region-relative coordinates
(i, j); without an outstanding map the read is unspecified (zero). -/
def mapReadAt (bo : BufferObject) (i j : Nat) : Nat :=
  match bo.mapping with
  | none => 0
  | some ms => ms.staging (ms.region.x + i) (ms.region.y + j)

/-- Modelled from the spec: `gbm_bo_unmap` releases the mapping,
flushing Write-flagged modifications of the mapped region back into the
buffer contents. -/
def gbm_bo_unmap (bo : BufferObject) : BufferObject :=
  match bo.mapping with
  | none => bo
  | some ms =>
    { bo with
      contents :=
        if (ms.flags &&& GBM_BO_TRANSFER_WRITE) != 0 then
          fun a b =>
            if ms.region.containsPt a b then ms.staging a b
            else bo.contents a b
        else bo.contents,
      mapping := none }

/-- State of one buffer slot of a surface pool (spec section 4.3). -/
inductive SlotState where
  | Free
  | Locked
deriving DecidableEq

/-- Identity of a surface-owned buffer object handed out by
front-buffer locking: the owning surface and the pool slot index. -/
structure SurfaceBO where
  surfId : Nat
  idx : Nat
deriving DecidableEq

/-- Modelled from the spec: a Surface is a queue-like abstraction over a
small pool of buffer objects; each pool slot is Free or Locked. -/
structure Surface where
  dev : Device
  id : Nat
  width : Nat
  height : Nat
  format : Format
  usage : Nat
  slots : List SlotState

/-- Modelled from the spec: `gbm_surface_create` allocates an internal
buffer pool sized for double/triple buffering (backend-chosen size, all
slots initially Free); it fails with `AllocationFailed` under the same
conditions as buffer-object creation. -/
def gbm_surface_create (d : Device) (w h : Nat) (fmt : Format)
    (flags : Nat) (sid : Nat) : Except GbmError Surface :=
  if d.backend.supportedFmt fmt flags then
    .ok { dev := d, id := sid, width := w, height := h, format := fmt,
          usage := flags,
          slots := List.replicate d.backend.poolSize SlotState.Free }
  else .error .AllocationFailed

/-- Index of the next available Free slot of a pool, if any. -/
def firstFree : List SlotState → Option Nat
  | [] => none
  | SlotState.Free :: _ => some 0
  | SlotState.Locked :: rest => (firstFree rest).map (· + 1)

/-- Modelled from the spec: `gbm_surface_lock_front_buffer` fails with
`AlreadyLocked` while a buffer is already locked (at most one Locked
buffer per Surface), fails with `NoFreeBuffer` when the pool has no
Free slot, and otherwise transitions the next available slot Free to
Locked and returns it. -/
def gbm_surface_lock_front_buffer (s : Surface) :
    Except GbmError (SurfaceBO × Surface) :=
  if SlotState.Locked ∈ s.slots then .error .AlreadyLocked
  else
    match firstFree s.slots with
    | some i =>
      .ok (⟨s.id, i⟩, { s with slots := s.slots.set i SlotState.Locked })
    | none => .error .NoFreeBuffer

/-- Whether a buffer object belongs to the pool of this surface. -/
def belongsTo (s : Surface) (bo : SurfaceBO) : Prop :=
  bo.surfId = s.id ∧ bo.idx < s.slots.length

instance (s : Surface) (bo : SurfaceBO) : Decidable (belongsTo s bo) :=
  inferInstanceAs (Decidable (And _ _))

/-- Modelled from the spec: `gbm_surface_release_buffer` transitions the
given buffer Locked to Free, returning it to the pool; it fails with
`ForeignBuffer` if the buffer does not belong to this surface's pool and
with `NotLocked` if it is not currently Locked. -/
def gbm_surface_release_buffer (s : Surface) (bo : SurfaceBO) :
    Except GbmError Surface :=
  if belongsTo s bo then
    if s.slots.get? bo.idx = some SlotState.Locked then
      .ok { s with slots := s.slots.set bo.idx SlotState.Free }
    else .error .NotLocked
  else .error .ForeignBuffer

/-- Pure query `gbm_surface_has_free_buffers`. -/
def gbm_surface_has_free_buffers (s : Surface) : Bool :=
  decide (SlotState.Free ∈ s.slots)

/-- Number of Locked slots of a surface pool. -/
def countLocked (s : Surface) : Nat := s.slots.count SlotState.Locked

/-- One client call against a surface: a front-buffer lock attempt or a
release attempt for a given buffer. -/
inductive SurfOp where
  | lock
  | release (bo : SurfaceBO)

/-- Effect of one surface call on the surface state; failed calls leave
the state unchanged. -/
def stepOp (s : Surface) (op : SurfOp) : Surface :=
  match op with
  | SurfOp.lock =>
    match gbm_surface_lock_front_buffer s with
    | .ok (_, s2) => s2
    | .error _ => s
  | SurfOp.release bo =>
    match gbm_surface_release_buffer s bo with
    | .ok s2 => s2
    | .error _ => s

/-- Surface state after a sequence of lock/release calls. -/
def runOps (s : Surface) (ops : List SurfOp) : Surface :=
  ops.foldl stepOp s

/-- Setting one slot raises the count of any value by at most one. -/
theorem count_set_le_succ (l : List SlotState) (i : Nat)
    (v x : SlotState) : (l.set i v).count x ≤ l.count x + 1 := by
  induction l generalizing i with
  | nil => simp
  | cons a t ih =>
    cases i with
    | zero =>
      simp only [List.set, List.count_cons]
      have := List.count_le_count_cons x v t
      split <;> split <;> omega
    | succ j =>
      simp only [List.set, List.count_cons]
      have := ih j
      split <;> omega

/-- Setting one slot to a value different from x never raises the count
of x. -/
theorem count_set_ne_le (l : List SlotState) (i : Nat) (v x : SlotState)
    (hne : v ≠ x) : (l.set i v).count x ≤ l.count x := by
  induction l generalizing i with
  | nil => simp
  | cons a t ih =>
    cases i with
    | zero =>
      simp only [List.set, List.count_cons]
      split
      · next hvx => exact absurd (beq_iff_eq.mp hvx) hne
      · split <;> omega
    | succ j =>
      simp only [List.set, List.count_cons]
      have := ih j
      split <;> omega

/-- Every single surface call preserves the at-most-one-Locked bound. -/
theorem stepOp_preserves_locked_bound (s : Surface) (op : SurfOp)
    (hb : countLocked s ≤ 1) : countLocked (stepOp s op) ≤ 1 := by
  cases op with
  | lock =>
    unfold stepOp gbm_surface_lock_front_buffer
    by_cases hm : SlotState.Locked ∈ s.slots
    · simp [hm]
      exact hb
    · have hz : s.slots.count SlotState.Locked = 0 :=
        List.count_eq_zero.mpr hm
      cases hf : firstFree s.slots with
      | none => simp [hm, hf]; exact hb
      | some i =>
        simp [hm, hf]
        unfold countLocked at hz ⊢
        have := count_set_le_succ s.slots i SlotState.Locked
          SlotState.Locked
        simp only at this ⊢
        omega
  | release bo =>
    show countLocked (match gbm_surface_release_buffer s bo with
      | Except.ok s2 => s2
      | Except.error _ => s) ≤ 1
    by_cases hbel : belongsTo s bo
    · by_cases hl : s.slots.get? bo.idx = some SlotState.Locked
      · have hr : gbm_surface_release_buffer s bo =
            .ok { s with slots := s.slots.set bo.idx SlotState.Free } := by
          unfold gbm_surface_release_buffer
          rw [if_pos hbel, if_pos hl]
        rw [hr]
        exact le_trans (count_set_ne_le s.slots bo.idx SlotState.Free
          SlotState.Locked (by simp)) hb
      · have hr : gbm_surface_release_buffer s bo =
            .error .NotLocked := by
          unfold gbm_surface_release_buffer
          rw [if_pos hbel, if_neg hl]
        rw [hr]
        exact hb
    · have hr : gbm_surface_release_buffer s bo =
          .error .ForeignBuffer := by
        unfold gbm_surface_release_buffer
        rw [if_neg hbel]
      rw [hr]
      exact hb

/-- A concrete backend used to instantiate the model on closed inputs:
every handle is valid, every format/usage combination is supported, rows
are unpadded, the surface pool holds two buffers, and bulk write and
mapping are available. -/
def testBackend : Backend :=
  { name := "drm", validFd := fun _ => true,
    supportedFmt := fun _ _ => true, rowPadding := fun _ _ => 0,
    poolSize := 2, writeOk := fun _ => true, mapOk := fun _ => true }

/-- A concrete device over `testBackend` with file descriptor 5. -/
def testDevice : Device := { backend := testBackend, fd := 5 }

/-- A concrete 2-by-2 XRGB8888 buffer object, as produced by
`gbm_bo_create testDevice 2 2 .XRGB8888 0`. -/
def testBo : BufferObject :=
  { dev := testDevice, width := 2, height := 2, stride := 8,
    format := .XRGB8888, usage := 0, userData := none,
    contents := fun _ _ => 0, mapping := none }

/-- A concrete two-slot surface as produced by
`gbm_surface_create testDevice 64 64 .XRGB8888 GBM_BO_USE_SCANOUT 0`,
both slots Free. -/
def testSurface0 : Surface :=
  { dev := testDevice, id := 0, width := 64, height := 64,
    format := .XRGB8888, usage := 1,
    slots := [SlotState.Free, SlotState.Free] }

/-- The surface `testSurface0` after one successful front-buffer lock:
slot 0 Locked, slot 1 Free. -/
def testSurface1 : Surface :=
  { dev := testDevice, id := 0, width := 64, height := 64,
    format := .XRGB8888, usage := 1,
    slots := [SlotState.Locked, SlotState.Free] }

/-- A freshly created pool has no Locked slot. -/
theorem count_replicate_free (n : Nat) :
    (List.replicate n SlotState.Free).count SlotState.Locked = 0 := by
  induction n with
  | zero => rfl
  | succ m ih => simp [List.replicate, List.count_cons, ih]

/-- The locked-count bound is preserved by any call sequence. -/
theorem runOps_preserves_locked_bound (ops : List SurfOp) (s : Surface)
    (hb : countLocked s ≤ 1) : countLocked (runOps s ops) ≤ 1 := by
  induction ops generalizing s with
  | nil => exact hb
  | cons op rest ih =>
    exact ih (stepOp s op) (stepOp_preserves_locked_bound s op hb)

/-- The slot returned by `firstFree` is inside the pool and Free. -/
theorem firstFree_spec (l : List SlotState) (i : Nat)
    (hf : firstFree l = some i) :
    i < l.length ∧ l.get? i = some SlotState.Free := by
  induction l generalizing i with
  | nil => simp [firstFree] at hf
  | cons a t ih =>
    cases a with
    | Free =>
      simp [firstFree] at hf
      subst hf
      simp
    | Locked =>
      simp [firstFree] at hf
      obtain ⟨j, hj, hij⟩ := hf
      obtain ⟨hlt, hget⟩ := ih j hj
      subst hij
      constructor
      · simpa using Nat.succ_lt_succ hlt
      · simpa using hget

/-- The written value is a member of the updated pool. -/
theorem mem_set_self (l : List SlotState) (i : Nat) (v : SlotState)
    (h : i < l.length) : v ∈ l.set i v := by
  induction l generalizing i with
  | nil => simp at h
  | cons a t ih =>
    cases i with
    | zero => simp [List.set]
    | succ j =>
      simp only [List.set]
      exact List.mem_cons_of_mem a (ih j (by simpa using h))

/-- Reading back the slot just written. -/
theorem get_set_self (l : List SlotState) (i : Nat) (v : SlotState)
    (h : i < l.length) : (l.set i v).get? i = some v := by
  induction l generalizing i with
  | nil => simp at h
  | cons a t ih =>
    cases i with
    | zero => rfl
    | succ j => exact ih j (by simpa using h)

/-- Claim C3: for every surface produced by `gbm_surface_create` and
every reachable sequence of lock/release calls, at most one pool buffer
is Locked at any time; and any front-buffer lock attempted while a
buffer is Locked fails with AlreadyLocked. -/
theorem surface_at_most_one_locked (d : Device) (w h : Nat)
    (fmt : Format) (flags sid : Nat) (s0 : Surface) (ops : List SurfOp)
    (hc : gbm_surface_create d w h fmt flags sid = .ok s0) :
    countLocked (runOps s0 ops) ≤ 1 ∧
    (∀ s : Surface, SlotState.Locked ∈ s.slots →
      gbm_surface_lock_front_buffer s = .error .AlreadyLocked) := by
  constructor
  · have h0 : countLocked s0 ≤ 1 := by
      unfold gbm_surface_create at hc
      by_cases hs : d.backend.supportedFmt fmt flags
      · rw [if_pos hs] at hc
        injection hc with hc
        subst hc
        unfold countLocked
        simp only
        rw [count_replicate_free]
        omega
      · rw [if_neg hs] at hc
        exact absurd hc (by simp)
    exact runOps_preserves_locked_bound ops s0 h0
  · intro s hm
    unfold gbm_surface_lock_front_buffer
    rw [if_pos hm]

/-- Witness for `surface_at_most_one_locked`: the invariant evaluated
after a concrete call sequence on the concrete two-slot surface, and
AlreadyLocked on the concrete surface with a locked slot. -/
theorem surface_at_most_one_locked_witness :
    countLocked (runOps testSurface0
      [SurfOp.lock, SurfOp.lock, SurfOp.release ⟨0, 0⟩, SurfOp.lock]) ≤ 1 ∧
    gbm_surface_lock_front_buffer testSurface1 =
      .error .AlreadyLocked :=
  ⟨(surface_at_most_one_locked testDevice 64 64 Format.XRGB8888 1 0
      testSurface0 [SurfOp.lock, SurfOp.lock, SurfOp.release ⟨0, 0⟩,
        SurfOp.lock] rfl).1,
   (surface_at_most_one_locked testDevice 64 64 Format.XRGB8888 1 0
      testSurface0 [] rfl).2 testSurface1 (by decide)⟩

/-- Claim C4 counterexample: on a two-slot surface with one buffer
locked after a first successful lock, the pool still has a free slot,
yet the second front-buffer lock fails with AlreadyLocked rather than
succeeding with a different free slot. -/
theorem second_lock_fails_despite_free_slots :
    gbm_surface_lock_front_buffer testSurface0 =
      .ok (⟨0, 0⟩, testSurface1) ∧
    gbm_surface_has_free_buffers testSurface1 = true ∧
    gbm_surface_lock_front_buffer testSurface1 =
      .error .AlreadyLocked :=
  ⟨rfl, rfl, rfl⟩

/-- Claim C4 (amended): after a first successful lockFrontBuffer, the
returned buffer occupied a Free slot (hence is distinct from every slot
that was Locked), and a second lockFrontBuffer without an intervening
releaseBuffer always fails with AlreadyLocked, whether or not the pool
is exhausted. -/
theorem second_lock_always_already_locked (s : Surface)
    (bo : SurfaceBO) (s2 : Surface)
    (hl : gbm_surface_lock_front_buffer s = .ok (bo, s2)) :
    s.slots.get? bo.idx = some SlotState.Free ∧
    (∀ j, s.slots.get? j = some SlotState.Locked → bo.idx ≠ j) ∧
    gbm_surface_lock_front_buffer s2 = .error .AlreadyLocked := by
  unfold gbm_surface_lock_front_buffer at hl
  by_cases hm : SlotState.Locked ∈ s.slots
  · rw [if_pos hm] at hl
    exact absurd hl (by simp)
  · rw [if_neg hm] at hl
    cases hf : firstFree s.slots with
    | none => rw [hf] at hl; exact absurd hl (by simp)
    | some i =>
      rw [hf] at hl
      injection hl with hl
      injection hl with hbo hs2
      subst hbo
      subst hs2
      obtain ⟨hlt, hget⟩ := firstFree_spec s.slots i hf
      refine ⟨hget, ?_, ?_⟩
      · intro j hj hij
        have hij2 : i = j := hij
        subst hij2
        rw [hget] at hj
        simp at hj
      · unfold gbm_surface_lock_front_buffer
        rw [if_pos (mem_set_self s.slots i SlotState.Locked hlt)]

/-- Witness for `second_lock_always_already_locked` on the concrete
two-slot surface and its first lock result. -/
theorem second_lock_always_already_locked_witness :
    testSurface0.slots.get? (SurfaceBO.mk 0 0).idx =
      some SlotState.Free ∧
    (∀ j, testSurface0.slots.get? j = some SlotState.Locked →
      (SurfaceBO.mk 0 0).idx ≠ j) ∧
    gbm_surface_lock_front_buffer testSurface1 =
      .error .AlreadyLocked :=
  second_lock_always_already_locked testSurface0 ⟨0, 0⟩ testSurface1 rfl

/-- Claim C5: releaseBuffer fails with NotLocked or ForeignBuffer
exactly when the buffer does not belong to the surface's pool or is not
currently Locked; when it succeeds, the buffer transitions Locked to
Free and is returned to the pool. -/
theorem release_buffer_spec (s : Surface) (bo : SurfaceBO) :
    ((∃ e, gbm_surface_release_buffer s bo = .error e ∧
        (e = GbmError.NotLocked ∨ e = GbmError.ForeignBuffer)) ↔
      (¬ belongsTo s bo ∨
        s.slots.get? bo.idx ≠ some SlotState.Locked)) ∧
    (∀ s2, gbm_surface_release_buffer s bo = .ok s2 →
      s.slots.get? bo.idx = some SlotState.Locked ∧
      s2.slots.get? bo.idx = some SlotState.Free ∧
      s2.slots = s.slots.set bo.idx SlotState.Free) := by
  by_cases hbel : belongsTo s bo
  · by_cases hl : s.slots.get? bo.idx = some SlotState.Locked
    · have hr : gbm_surface_release_buffer s bo =
          .ok { s with slots := s.slots.set bo.idx SlotState.Free } := by
        unfold gbm_surface_release_buffer
        rw [if_pos hbel, if_pos hl]
      constructor
      · rw [hr]
        simp only [iff_iff_implies_and_implies]
        constructor
        · rintro ⟨e, he, _⟩
          exact absurd he (by simp)
        · rintro (hc | hc)
          · exact absurd hbel hc
          · exact absurd hl hc
      · intro s2 hs2
        rw [hr] at hs2
        injection hs2 with hs2
        subst hs2
        refine ⟨hl, ?_, rfl⟩
        exact get_set_self s.slots bo.idx SlotState.Free hbel.2
    · have hr : gbm_surface_release_buffer s bo =
          .error .NotLocked := by
        unfold gbm_surface_release_buffer
        rw [if_pos hbel, if_neg hl]
      constructor
      · rw [hr]
        constructor
        · intro _
          exact Or.inr hl
        · intro _
          exact ⟨GbmError.NotLocked, rfl, Or.inl rfl⟩
      · intro s2 hs2
        rw [hr] at hs2
        exact absurd hs2 (by simp)
  · have hr : gbm_surface_release_buffer s bo =
        .error .ForeignBuffer := by
      unfold gbm_surface_release_buffer
      rw [if_neg hbel]
    constructor
    · rw [hr]
      constructor
      · intro _
        exact Or.inl hbel
      · intro _
        exact ⟨GbmError.ForeignBuffer, rfl, Or.inr rfl⟩
    · intro s2 hs2
      rw [hr] at hs2
      exact absurd hs2 (by simp)

/-- Witness for `release_buffer_spec`: releasing the locked slot of the
concrete surface succeeds and returns the slot to the pool. -/
theorem release_buffer_spec_witness :
    testSurface1.slots.get? (SurfaceBO.mk 0 0).idx =
      some SlotState.Locked ∧
    testSurface0.slots.get? (SurfaceBO.mk 0 0).idx =
      some SlotState.Free ∧
    testSurface0.slots =
      testSurface1.slots.set (SurfaceBO.mk 0 0).idx SlotState.Free :=
  (release_buffer_spec testSurface1 ⟨0, 0⟩).2 testSurface0 rfl

/-- Claim C8: the usage-flag bitset has exactly the values Scanout=1,
Cursor=2, Rendering=4, Write=8, Linear=16, and the transfer-flag bitset
has exactly Read=1, Write=2, ReadWrite=3, with ReadWrite the bitwise OR
of Read and Write. -/
theorem flag_values_exact :
    GBM_BO_USE_SCANOUT = 1 ∧ GBM_BO_USE_CURSOR = 2 ∧
    GBM_BO_USE_RENDERING = 4 ∧ GBM_BO_USE_WRITE = 8 ∧
    GBM_BO_USE_LINEAR = 16 ∧ GBM_BO_TRANSFER_READ = 1 ∧
    GBM_BO_TRANSFER_WRITE = 2 ∧ GBM_BO_TRANSFER_READ_WRITE = 3 ∧
    GBM_BO_TRANSFER_READ_WRITE =
      (GBM_BO_TRANSFER_READ ||| GBM_BO_TRANSFER_WRITE) := by
  decide

/-- Claim C10: the deprecated flag GBM_BO_USE_CURSOR_64X64 equals
GBM_BO_USE_CURSOR numerically, so every create call and every bulk-write
call on a buffer created with one flag behaves identically with the
other. -/
theorem cursor64_alias_interchangeable :
    GBM_BO_USE_CURSOR_64X64 = GBM_BO_USE_CURSOR ∧
    (∀ (d : Device) (w h : Nat) (fmt : Format),
      gbm_bo_create d w h fmt GBM_BO_USE_CURSOR_64X64 =
        gbm_bo_create d w h fmt GBM_BO_USE_CURSOR) ∧
    (∀ (d : Device) (w h : Nat) (fmt : Format) (buf : Nat → Nat) (n : Nat),
      (gbm_bo_create d w h fmt GBM_BO_USE_CURSOR_64X64).map
          (fun bo => gbm_bo_write bo buf n) =
        (gbm_bo_create d w h fmt GBM_BO_USE_CURSOR).map
          (fun bo => gbm_bo_write bo buf n)) := by
  refine ⟨rfl, fun d w h fmt => rfl, fun d w h fmt buf n => rfl⟩

/-- Claim C9: if `gbm_create_device fd` succeeds and returns a device,
then `gbm_device_get_fd` on that device returns fd. -/
theorem device_fd_roundtrip (b : Backend) (fd : Int) (d : Device)
    (hc : gbm_create_device b fd = .ok d) :
    gbm_device_get_fd d = fd := by
  unfold gbm_create_device at hc
  by_cases hv : b.validFd fd
  · simp [hv] at hc
    subst hc
    rfl
  · simp [hv] at hc

/-- Witness for `device_fd_roundtrip` at the concrete test device. -/
theorem device_fd_roundtrip_witness : gbm_device_get_fd testDevice = 5 :=
  device_fd_roundtrip testBackend 5 testDevice rfl

/-- Claim C1: every successful `gbm_bo_create d w h fmt flags` yields a
buffer whose accessors report width w, height h, format fmt, and a
stride of at least w times the bytes-per-pixel of fmt. -/
theorem bo_create_reports_requested_geometry (d : Device) (w h : Nat)
    (fmt : Format) (flags : Nat) (bo : BufferObject)
    (hc : gbm_bo_create d w h fmt flags = .ok bo) :
    gbm_bo_get_width bo = w ∧ gbm_bo_get_height bo = h ∧
    gbm_bo_get_format bo = fmt ∧
    w * bytesPerPixel fmt ≤ gbm_bo_get_stride bo := by
  unfold gbm_bo_create at hc
  by_cases hs : d.backend.supportedFmt fmt flags
  · simp [hs] at hc
    subst hc
    exact ⟨rfl, rfl, rfl, Nat.le_add_right _ _⟩
  · simp [hs] at hc

/-- Witness for `bo_create_reports_requested_geometry` at the concrete
2-by-2 buffer created on the test device. -/
theorem bo_create_reports_requested_geometry_witness :
    gbm_bo_get_width testBo = 2 ∧ gbm_bo_get_height testBo = 2 ∧
    gbm_bo_get_format testBo = Format.XRGB8888 ∧
    2 * bytesPerPixel Format.XRGB8888 ≤ gbm_bo_get_stride testBo :=
  bo_create_reports_requested_geometry testDevice 2 2 Format.XRGB8888 0
    testBo rfl

/-- Claim C2: whenever `gbm_device_is_format_supported` reports a
(format, usage) pair supported, `gbm_bo_create` with those parameters
succeeds rather than failing with AllocationFailed. -/
theorem supported_format_create_succeeds (d : Device) (w h : Nat)
    (fmt : Format) (usage : Nat)
    (hs : gbm_device_is_format_supported d fmt usage = true) :
    ∃ bo, gbm_bo_create d w h fmt usage = .ok bo := by
  unfold gbm_device_is_format_supported at hs
  refine ⟨{ dev := d, width := w, height := h,
            stride := w * bytesPerPixel fmt + d.backend.rowPadding w fmt,
            format := fmt, usage := usage, userData := none,
            contents := fun _ _ => 0, mapping := none }, ?_⟩
  unfold gbm_bo_create
  rw [if_pos hs]

/-- Witness for `supported_format_create_succeeds` on the test device
with XRGB8888 and the SCANOUT usage flag. -/
theorem supported_format_create_succeeds_witness :
    ∃ bo, gbm_bo_create testDevice 64 64 Format.XRGB8888
      GBM_BO_USE_SCANOUT = .ok bo :=
  supported_format_create_succeeds testDevice 64 64 Format.XRGB8888
    GBM_BO_USE_SCANOUT rfl

/-- Claim C6: destroying a buffer on which `gbm_bo_set_user_data` last
attached pointer p and destructor d invokes d exactly once, with the
buffer and p as arguments, before the backend release; a buffer with no
attached destructor invokes none. -/
theorem destroy_invokes_destructor_once (bo : BufferObject)
    (p d : Nat) :
    (gbm_bo_destroy (gbm_bo_set_user_data bo p (some d)) =
      [DestroyEvent.callback (gbm_bo_set_user_data bo p (some d)) d p,
       DestroyEvent.releaseBackend (gbm_bo_set_user_data bo p (some d))]) ∧
    (bo.userData = none →
      gbm_bo_destroy bo = [DestroyEvent.releaseBackend bo]) := by
  constructor
  · rfl
  · intro hn
    unfold gbm_bo_destroy
    rw [hn]
    rfl

/-- Witness for `destroy_invokes_destructor_once` on the concrete
buffer, with pointer 7 and destructor 3. -/
theorem destroy_invokes_destructor_once_witness :
    (gbm_bo_destroy (gbm_bo_set_user_data testBo 7 (some 3)) =
      [DestroyEvent.callback (gbm_bo_set_user_data testBo 7 (some 3)) 3 7,
       DestroyEvent.releaseBackend (gbm_bo_set_user_data testBo 7 (some 3))]) ∧
    gbm_bo_destroy testBo = [DestroyEvent.releaseBackend testBo] :=
  ⟨(destroy_invokes_destructor_once testBo 7 3).1,
   (destroy_invokes_destructor_once testBo 7 3).2 rfl⟩

/-- Mapping an unmapped, mappable buffer over an in-bounds region
succeeds and records the region, the flags, and the staging view. -/
theorem gbm_bo_map_ok (bo : BufferObject) (x y w h flags : Nat)
    (hm : bo.mapping = none)
    (hok : bo.dev.backend.mapOk bo.usage = true)
    (hx : x + w ≤ bo.width) (hy : y + h ≤ bo.height) :
    gbm_bo_map bo x y w h flags = .ok { bo with mapping := some (MapState.mk
      ⟨x, y, w, h⟩ flags
        (if (flags &&& GBM_BO_TRANSFER_READ) != 0 then bo.contents
         else fun _ _ => 0)) } := by
  simp only [gbm_bo_map, hm]
  rw [if_pos hok, if_pos ⟨hx, hy⟩]

/-- Claim C7: for a mappable buffer with no outstanding map and an
in-bounds region, mapping with the Write transfer flag, writing pattern
p, unmapping, then mapping the same region with the Read flag yields
contents equal to p at every point of the region. -/
theorem map_write_unmap_read_roundtrip (bo : BufferObject)
    (p : Nat → Nat → Nat) (x y w h i j : Nat)
    (hm : bo.mapping = none)
    (hok : bo.dev.backend.mapOk bo.usage = true)
    (hx : x + w ≤ bo.width) (hy : y + h ≤ bo.height)
    (hi : i < w) (hj : j < h) :
    ∃ bo1 bo3,
      gbm_bo_map bo x y w h GBM_BO_TRANSFER_WRITE = .ok bo1 ∧
      gbm_bo_map (gbm_bo_unmap (mapWritePattern bo1 p)) x y w h
        GBM_BO_TRANSFER_READ = .ok bo3 ∧
      mapReadAt bo3 i j = p i j := by
  have hcont : MapRegion.containsPt ⟨x, y, w, h⟩ (x + i) (y + j) = true := by
    unfold MapRegion.containsPt
    simp only [Bool.and_eq_true, decide_eq_true_eq]
    omega
  refine ⟨_, _,
    gbm_bo_map_ok bo x y w h GBM_BO_TRANSFER_WRITE hm hok hx hy,
    gbm_bo_map_ok _ x y w h GBM_BO_TRANSFER_READ rfl hok hx hy, ?_⟩
  have hw1 : (GBM_BO_TRANSFER_WRITE &&& GBM_BO_TRANSFER_READ != 0) = false := by
    decide
  have hw2 : (GBM_BO_TRANSFER_WRITE &&& GBM_BO_TRANSFER_WRITE != 0) = true := by
    decide
  have hw3 : (GBM_BO_TRANSFER_READ &&& GBM_BO_TRANSFER_READ != 0) = true := by
    decide
  simp only [mapReadAt, mapWritePattern, gbm_bo_unmap, hw1, hw2, hw3]
  simp [hcont, Nat.add_sub_cancel_left]

/-- Witness for `map_write_unmap_read_roundtrip`: the full round trip
on the concrete 2-by-2 buffer with a concrete pattern, read back at
region point (1, 0). -/
theorem map_write_unmap_read_roundtrip_witness :
    ∃ bo1 bo3,
      gbm_bo_map testBo 0 0 2 2 GBM_BO_TRANSFER_WRITE = .ok bo1 ∧
      gbm_bo_map (gbm_bo_unmap (mapWritePattern bo1
        (fun a b => 10 * a + b))) 0 0 2 2 GBM_BO_TRANSFER_READ =
        .ok bo3 ∧
      mapReadAt bo3 1 0 = (fun a b => 10 * a + b) 1 0 :=
  map_write_unmap_read_roundtrip testBo (fun a b => 10 * a + b)
    0 0 2 2 1 0 rfl rfl (by decide) (by decide) (by decide) (by decide)

end GBM
